import Mathlib

/-!
Verification of the node-local pod resource Allocation Manager
(kubelet `allocation` package): allocation store, resize admission
evaluator, pending-resize queue and resize progress monitor.

The manager implementation itself is not part of the provided sources
(only its test suite is), so the definitions below are modelled from the
specification's component contracts (spec sections 4.1 to 4.5), with the
test suite pinning concrete message formats and quantities.  CPU
quantities are in milliCPU, memory quantities in bytes.
-/

namespace Allocation

/-- Resource dimensions tracked by the manager: CPU and memory. -/
inductive ResourceName
| cpu
| memory
deriving DecidableEq

/-- Display name of a resource, as it appears in condition messages. -/
def ResourceName.display : ResourceName → String
| .cpu => "cpu"
| .memory => "memory"

/-- Modelled from the spec: a `v1.ResourceList` restricted to the two
dimensions the manager tracks.  A `none` entry models an absent map key
(missing from the Go `v1.ResourceList`). -/
structure ResourceList where
  cpu : Option Nat := none
  memory : Option Nat := none
deriving DecidableEq

/-- Quantity stored for a resource, `none` when the key is absent. -/
def ResourceList.get : ResourceList → ResourceName → Option Nat
| r, .cpu => r.cpu
| r, .memory => r.memory

/-- Quantity stored for a resource, with an absent key reading as zero
(the zero `resource.Quantity` in Go). -/
def ResourceList.getZ (r : ResourceList) (n : ResourceName) : Nat :=
  (r.get n).getD 0

/-- Modelled from the spec: `v1.ResourceRequirements` — requests and
limits for the tracked dimensions. -/
structure ResourceRequirements where
  requests : ResourceList := {}
  limits : ResourceList := {}
deriving DecidableEq

/-- Modelled from the spec: the slice of `v1.Container` the manager
reads.  `restartAlways` marks a restartable init container (sidecar)
when the container sits in the init list; `memResizeRequiresRestart`
records a `RestartContainer` resize policy for memory;
`swapLimited` records a runtime-reported swap behavior other than
`NoSwap` for the container. -/
structure Container where
  name : String
  resources : ResourceRequirements := {}
  restartAlways : Bool := false
  memResizeRequiresRestart : Bool := false
  swapLimited : Bool := false
deriving DecidableEq

/-- Modelled from the spec: the slice of `v1.Pod` the manager reads.
`isStatic` marks a file-sourced (static) pod; `priority` is the pod
scheduling priority; `qosGuaranteed` marks the Guaranteed QoS class. -/
structure Pod where
  uid : Nat
  isStatic : Bool := false
  priority : Nat := 0
  qosGuaranteed : Bool := false
  containers : List Container := []
  initContainers : List Container := []
deriving DecidableEq

/-- All containers of a pod, init containers first (the order the
manager visits them). -/
def Pod.allContainers (p : Pod) : List Container :=
  p.initContainers ++ p.containers

/-- Modelled from the spec: `state.PodResourceInfo` — the per-pod
allocation record, mapping container name to allocated requirements. -/
structure PodResourceInfo where
  containerResources : List (String × ResourceRequirements)
deriving DecidableEq

/-- Look up one container's allocated requirements in a pod record. -/
def PodResourceInfo.lookup (info : PodResourceInfo) (name : String) :
    Option ResourceRequirements :=
  (info.containerResources.find? (fun e => e.1 == name)).map (fun e => e.2)

/-- Modelled from the spec: `state.PodResourceInfoMap` — the Allocation
Store contents, keyed by pod identifier. -/
abbrev PodResourceInfoMap := List (Nat × PodResourceInfo)

/-- Look up a pod's allocation record in the store. -/
def lookupPodAlloc (m : PodResourceInfoMap) (uid : Nat) :
    Option PodResourceInfo :=
  (m.find? (fun e => e.1 == uid)).map (fun e => e.2)

/-- The allocation record capturing a pod's current spec resources. -/
def podAllocationRecord (p : Pod) : PodResourceInfo :=
  ⟨p.allContainers.map (fun c => (c.name, c.resources))⟩

/-- Modelled from the spec: `SetAllocatedResources(pod)` durably records
the pod's current container resource requirements as allocated,
replacing any previous record for the pod. -/
def SetAllocatedResources (p : Pod) (m : PodResourceInfoMap) :
    PodResourceInfoMap :=
  (p.uid, podAllocationRecord p) :: m.filter (fun e => e.1 ≠ p.uid)

/-- Modelled from the spec: `GetContainerResourceAllocation(podID,
containerName)` returns the stored requirements when present. -/
def GetContainerResourceAllocation (m : PodResourceInfoMap) (uid : Nat)
    (name : String) : Option ResourceRequirements :=
  (lookupPodAlloc m uid).bind (fun info => info.lookup name)

/-- Overwrite each container's resources from the allocation record
wherever an allocation exists, leaving other containers untouched. -/
def updateContainers (info : PodResourceInfo) (cs : List Container) :
    List Container :=
  cs.map (fun c =>
    match info.lookup c.name with
    | some r => { c with resources := r }
    | none => c)

/-- Modelled from the spec: `updatePodFromAllocation(pod, allocs)`
produces a copy of the pod with container resources overwritten from the
store wherever an allocation exists, and returns a flag indicating
whether any field actually changed; if nothing changed it returns the
original pod object unmodified. -/
def updatePodFromAllocation (pod : Pod) (allocs : PodResourceInfoMap) :
    Pod × Bool :=
  match lookupPodAlloc allocs pod.uid with
  | none => (pod, false)
  | some info =>
    let cs := updateContainers info pod.containers
    let ics := updateContainers info pod.initContainers
    if cs = pod.containers ∧ ics = pod.initContainers then (pod, false)
    else ({ pod with containers := cs, initContainers := ics }, true)

/-! ### Allocation Store lemmas (towards C8) -/

/-- Looking up the freshly recorded pod hits the new record. -/
theorem lookupPodAlloc_set (p : Pod) (m : PodResourceInfoMap) :
    lookupPodAlloc (SetAllocatedResources p m) p.uid =
      some (podAllocationRecord p) := by
  simp [lookupPodAlloc, SetAllocatedResources, List.find?]

/-- In a record built from containers with distinct names, each
container's name looks up its own resources. -/
theorem find_record_self (l : List Container) (c : Container)
    (hc : c ∈ l) (hnd : (l.map Container.name).Nodup) :
    ((l.map (fun x => (x.name, x.resources))).find?
        (fun e => e.1 == c.name)) = some (c.name, c.resources) := by
  induction l with
  | nil => cases hc
  | cons a tl ih =>
    simp only [List.map_cons, List.nodup_cons] at hnd
    rcases List.mem_cons.mp hc with rfl | hmem
    · simp [List.find?]
    · have hne : a.name ≠ c.name := by
        intro h
        exact hnd.1 (h ▸ (List.mem_map.mpr ⟨c, hmem, rfl⟩))
      simp only [List.map_cons, List.find?]
      rw [show ((a.name, a.resources).1 == c.name) = false from
        beq_eq_false_iff_ne.mpr hne]
      exact ih hmem hnd.2

/-- Each container of the pod finds exactly its own resources in the
pod's freshly built allocation record, given distinct container names. -/
theorem record_lookup_self (p : Pod) (c : Container)
    (hc : c ∈ p.allContainers)
    (hnd : (p.allContainers.map Container.name).Nodup) :
    (podAllocationRecord p).lookup c.name = some c.resources := by
  unfold podAllocationRecord PodResourceInfo.lookup
  rw [find_record_self p.allContainers c hc hnd]
  rfl

/-- Overwriting containers from a record that stores each container's
own resources is the identity. -/
theorem updateContainers_self (info : PodResourceInfo)
    (cs : List Container)
    (h : ∀ c ∈ cs, info.lookup c.name = some c.resources) :
    updateContainers info cs = cs := by
  induction cs with
  | nil => rfl
  | cons c tl ih =>
    unfold updateContainers
    simp only [List.map_cons]
    rw [h c (List.mem_cons_self c tl)]
    have htl : updateContainers info tl = tl :=
      ih (fun x hx => h x (List.mem_cons_of_mem c hx))
    unfold updateContainers at htl
    rw [htl]

/-! ### Resize Admission Evaluator -/

/-- Outcome of one admission evaluation of a proposed resize. -/
inductive ResizeDecision
| noResize
| infeasible (message : String)
| deferred (message : String)
| admitted
deriving DecidableEq

/-- Whether the decision rejected the resize (Deferred or Infeasible). -/
def ResizeDecision.isRejected : ResizeDecision → Bool
| .infeasible _ => true
| .deferred _ => true
| _ => false

/-- Whether the decision is Deferred. -/
def ResizeDecision.isDeferred : ResizeDecision → Bool
| .deferred _ => true
| _ => false

/-- Whether the decision is Infeasible. -/
def ResizeDecision.isInfeasible : ResizeDecision → Bool
| .infeasible _ => true
| _ => false

/-- The message carried by a rejection, empty otherwise. -/
def ResizeDecision.messageOf : ResizeDecision → String
| .infeasible m => m
| .deferred m => m
| _ => ""

/-- Modelled from the spec: the node allocatable capacity snapshot the
evaluator compares against (CPU in milliCPU, memory in bytes). -/
structure NodeCapacity where
  allocatableCpu : Nat
  allocatableMemory : Nat
deriving DecidableEq

/-- Node allocatable quantity for one dimension. -/
def NodeCapacity.allocatable (n : NodeCapacity) : ResourceName → Nat
| .cpu => n.allocatableCpu
| .memory => n.allocatableMemory

/-- The requirements currently allocated to a container, falling back to
the container's own spec when the store has no record (a pod never
admitted reads as already at its spec). -/
def allocatedRequirements (allocs : PodResourceInfoMap) (uid : Nat)
    (c : Container) : ResourceRequirements :=
  ((lookupPodAlloc allocs uid).bind (fun info => info.lookup c.name)).getD
    c.resources

/-- Whether the pod's desired (spec) resources equal its allocated
resources, i.e. there is no resize to evaluate. -/
def desiredEqualsAllocated (allocs : PodResourceInfoMap) (pod : Pod) :
    Bool :=
  pod.allContainers.all
    (fun c => c.resources == allocatedRequirements allocs pod.uid c)

/-- Whether some container's request for the dimension strictly
increases over its allocated value (absent keys read as zero). -/
def dimensionIncreases (allocs : PodResourceInfoMap) (pod : Pod)
    (res : ResourceName) : Bool :=
  pod.allContainers.any (fun c =>
    (allocatedRequirements allocs pod.uid c).requests.getZ res <
      c.resources.requests.getZ res)

/-- Whether every container's change in every dimension (CPU and memory,
requests and limits) is flat or a decrease. -/
def isDecreaseOnly (allocs : PodResourceInfoMap) (pod : Pod) : Bool :=
  pod.allContainers.all (fun c =>
    let alloc := allocatedRequirements allocs pod.uid c
    c.resources.requests.getZ .cpu ≤ alloc.requests.getZ .cpu &&
    c.resources.requests.getZ .memory ≤ alloc.requests.getZ .memory &&
    c.resources.limits.getZ .cpu ≤ alloc.limits.getZ .cpu &&
    c.resources.limits.getZ .memory ≤ alloc.limits.getZ .memory)

/-- Total requested quantity of a dimension across all of the pod's
containers, at the proposed (spec) values. -/
def podRequestTotal (pod : Pod) (res : ResourceName) : Nat :=
  (pod.allContainers.map (fun c => c.resources.requests.getZ res)).sum

/-- Total requested quantity of a dimension recorded in one pod's
allocation record. -/
def infoRequestTotal (info : PodResourceInfo) (res : ResourceName) :
    Nat :=
  (info.containerResources.map (fun e => e.2.requests.getZ res)).sum

/-- Quantity of a dimension occupied by the allocations of the other
pods on the node (the resizing pod excluded). -/
def siblingUsage (allocs : PodResourceInfoMap) (uid : Nat)
    (res : ResourceName) : Nat :=
  ((allocs.filter (fun e => e.1 ≠ uid)).map
    (fun e => infoRequestTotal e.2 res)).sum

/-- Modelled from the spec: a container whose runtime swap behavior is
not `NoSwap` and whose memory resize policy does not require a container
restart cannot be resized in place (feasibility step 3). -/
def swapResizeDisallowed (pod : Pod) : Bool :=
  pod.allContainers.any
    (fun c => c.swapLimited && !c.memResizeRequiresRestart)

/-- The trailing requested/capacity note of an Infeasible capacity
message. -/
def requestedCapacityNote (requested capacity : Nat) : String :=
  "requested: " ++ toString requested ++ ", capacity: " ++
    toString capacity

/-- The message of a capacity-Infeasible condition. -/
def capacityMessage (res : ResourceName) (requested capacity : Nat) :
    String :=
  ("Node didn\x27t have enough capacity: " ++ res.display ++ ", ") ++
    requestedCapacityNote requested capacity

/-- The message of a Deferred condition naming the short resource. -/
def deferredMessage (res : ResourceName) : String :=
  "Node didn\x27t have enough resource: " ++ res.display

/-- The static-pod Infeasible message. -/
def staticPodMessage : String :=
  "In-place resize of static-pods is not supported"

/-- The swap Infeasible message. -/
def swapMessage : String :=
  "In-place resize of containers with swap is not supported"

/-- Whether the dimension increases and the pod's total demand strictly
exceeds the node allocatable capacity (could never fit). -/
def exceedsAllocatable (node : NodeCapacity)
    (allocs : PodResourceInfoMap) (pod : Pod) (res : ResourceName) :
    Bool :=
  dimensionIncreases allocs pod res &&
    decide (node.allocatable res < podRequestTotal pod res)

/-- Whether the dimension increases and the pod's total demand strictly
exceeds the capacity currently free (allocatable minus what the sibling
pods' allocations occupy). -/
def exceedsFree (node : NodeCapacity) (allocs : PodResourceInfoMap)
    (pod : Pod) (res : ResourceName) : Bool :=
  dimensionIncreases allocs pod res &&
    decide (node.allocatable res - siblingUsage allocs pod.uid res <
      podRequestTotal pod res)

/-- Modelled from the spec: `handlePodResourcesResize` — the Resize
Admission Evaluator (spec section 4.3).  The pod carries the desired
(spec) resources; the store carries the allocations.  Returns the
updated store, the decision, and whether the pod re-sync callback was
invoked.  Steps, in order: no-op when desired equals allocated; static
pods always Infeasible; swap-restricted containers Infeasible; an
increased dimension whose total demand exceeds node allocatable is
Infeasible (with a requested/capacity message); an increased dimension
whose total demand exceeds currently free capacity is Deferred;
otherwise the resize is admitted and the store updated.  Capacity is
checked only for dimensions that increase, so pure decreases fit
automatically. -/
def handlePodResourcesResize (node : NodeCapacity)
    (allocs : PodResourceInfoMap) (pod : Pod) :
    PodResourceInfoMap × ResizeDecision × Bool :=
  if desiredEqualsAllocated allocs pod then
    (allocs, .noResize, false)
  else if pod.isStatic then
    (allocs, .infeasible staticPodMessage, true)
  else if swapResizeDisallowed pod then
    (allocs, .infeasible swapMessage, true)
  else if exceedsAllocatable node allocs pod .cpu then
    (allocs, .infeasible
      (capacityMessage .cpu (podRequestTotal pod .cpu)
        node.allocatableCpu), true)
  else if exceedsAllocatable node allocs pod .memory then
    (allocs, .infeasible
      (capacityMessage .memory (podRequestTotal pod .memory)
        node.allocatableMemory), true)
  else if exceedsFree node allocs pod .cpu then
    (allocs, .deferred (deferredMessage .cpu), true)
  else if exceedsFree node allocs pod .memory then
    (allocs, .deferred (deferredMessage .memory), true)
  else
    (SetAllocatedResources pod allocs, .admitted, true)

/-! ### Concrete fixtures from the test suite

The node allocates 4000 milliCPU and 4Gi = 4294967296 bytes of memory.
Three pods are allocated, each requesting 1000 milliCPU and
1Gi = 1073741824 bytes; pod 1 is the one being resized, pods 2 and 3
occupy the difference between allocatable and free capacity. -/

/-- The test node: 4 CPUs (4000m) and 4Gi allocatable. -/
def testNode : NodeCapacity := ⟨4000, 4294967296⟩

/-- Requests of `cpu` milliCPU and `mem` bytes. -/
def reqs (cpu mem : Nat) : ResourceRequirements :=
  { requests := { cpu := some cpu, memory := some mem } }

/-- The resized pod (uid 1), one container `c1`. -/
def testPod1 : Pod :=
  { uid := 1, containers := [{ name := "c1", resources := reqs 1000 1073741824 }] }

/-- A sibling pod (uid 2) with one restartable init container. -/
def testPod2 : Pod :=
  { uid := 2,
    initContainers := [{ name := "c1-init", resources := reqs 1000 1073741824,
                         restartAlways := true }] }

/-- A sibling pod (uid 3), one container `c1`. -/
def testPod3 : Pod :=
  { uid := 3, containers := [{ name := "c1", resources := reqs 1000 1073741824 }] }

/-- The store with all three pods allocated at their original specs. -/
def testAllocs : PodResourceInfoMap :=
  SetAllocatedResources testPod3
    (SetAllocatedResources testPod2 (SetAllocatedResources testPod1 []))

/-- Pod 1 with its container's requests replaced by a proposal. -/
def testPod1With (r : ResourceRequirements) : Pod :=
  { uid := 1, containers := [{ name := "c1", resources := r }] }

/-- The pod of the `updatePodFromAllocation` test: two containers and
two init containers (one restartable), distinctly named. -/
def testC8Pod : Pod :=
  { uid := 12345,
    containers :=
      [{ name := "c1",
         resources := { requests := { cpu := some 100, memory := some 200 },
                        limits := { cpu := some 300, memory := some 400 } } },
       { name := "c2",
         resources := { requests := { cpu := some 500, memory := some 600 },
                        limits := { cpu := some 700, memory := some 800 } } }],
    initContainers :=
      [{ name := "c1-restartable-init",
         resources := { requests := { cpu := some 200, memory := some 300 },
                        limits := { cpu := some 400, memory := some 500 } },
         restartAlways := true },
       { name := "c1-init",
         resources := { requests := { cpu := some 500, memory := some 600 },
                        limits := { cpu := some 700, memory := some 800 } } }] }

/-- Pod 1 marked static, with a proposal. -/
def testStaticPod1With (r : ResourceRequirements) : Pod :=
  { uid := 1, isStatic := true,
    containers := [{ name := "c1", resources := r }] }

theorem evalCheck_decrease :
    handlePodResourcesResize testNode testAllocs
      (testPod1With (reqs 500 524288000)) =
    (SetAllocatedResources (testPod1With (reqs 500 524288000)) testAllocs,
      .admitted, true) := by decide

theorem evalCheck_deferred_both :
    (handlePodResourcesResize testNode testAllocs
      (testPod1With (reqs 2500 2621440000))).2.1 =
    .deferred (deferredMessage .cpu) := by decide

theorem evalCheck_deferred_mem :
    (handlePodResourcesResize testNode testAllocs
      (testPod1With (reqs 500 2621440000))).2.1 =
    .deferred "Node didn\x27t have enough resource: memory" := by decide

theorem evalCheck_infeasible_mem :
    (handlePodResourcesResize testNode testAllocs
      (testPod1With (reqs 1000 4718592000))).2.1 =
    .infeasible
      "Node didn\x27t have enough capacity: memory, requested: 4718592000, capacity: 4294967296" := by
  decide

theorem evalCheck_infeasible_cpu :
    (handlePodResourcesResize testNode testAllocs
      (testPod1With (reqs 5000 1073741824))).2.1 =
    .infeasible
      "Node didn\x27t have enough capacity: cpu, requested: 5000, capacity: 4000" := by
  decide

theorem evalCheck_no_resize :
    handlePodResourcesResize testNode testAllocs testPod1 =
      (testAllocs, .noResize, false) := by decide

theorem evalCheck_static :
    (handlePodResourcesResize testNode testAllocs
      (testStaticPod1With (reqs 500 524288000))).2.1 =
    .infeasible "In-place resize of static-pods is not supported" := by
  decide

/-! ### Store / evaluator helper lemmas -/

/-- The evaluator either leaves the store untouched, or admits the
resize and records the pod's new requirements. -/
theorem handle_store_cases (node : NodeCapacity)
    (allocs : PodResourceInfoMap) (pod : Pod) :
    (handlePodResourcesResize node allocs pod).1 = allocs ∨
    ((handlePodResourcesResize node allocs pod).2.1 = .admitted ∧
      (handlePodResourcesResize node allocs pod).1 =
        SetAllocatedResources pod allocs) := by
  unfold handlePodResourcesResize
  repeat' split
  all_goals simp

/-- A decrease in every dimension means no dimension increases. -/
theorem dimensionIncreases_eq_false_of_decreaseOnly
    (allocs : PodResourceInfoMap) (pod : Pod) (res : ResourceName)
    (h : isDecreaseOnly allocs pod = true) :
    dimensionIncreases allocs pod res = false := by
  rw [← Bool.not_eq_true]
  intro hinc
  obtain ⟨c, hc, hlt⟩ := List.any_eq_true.mp hinc
  have hall := List.all_eq_true.mp h c hc
  simp only [Bool.and_eq_true, decide_eq_true_eq] at hall hlt
  obtain ⟨⟨⟨h1, h2⟩, _⟩, _⟩ := hall
  cases res with
  | cpu => exact absurd hlt (not_lt.mpr h1)
  | memory => exact absurd hlt (not_lt.mpr h2)

/-- Claim C8: recording a pod's resources as allocated and then
immediately updating the identical pod from the allocation reports
`updated = false` and hands back the very pod it was given, unchanged
(the identity-preserving no-op contract), given the pod's containers
have distinct names. -/
theorem setAllocated_then_update_is_identity (pod : Pod)
    (m : PodResourceInfoMap)
    (h : (pod.allContainers.map Container.name).Nodup) :
    updatePodFromAllocation pod (SetAllocatedResources pod m) =
      (pod, false) := by
  unfold updatePodFromAllocation
  rw [lookupPodAlloc_set]
  have hcs : updateContainers (podAllocationRecord pod) pod.containers =
      pod.containers :=
    updateContainers_self _ _ (fun c hc =>
      record_lookup_self pod c
        (by simp only [Pod.allContainers, List.mem_append]; exact Or.inr hc) h)
  have hics : updateContainers (podAllocationRecord pod)
      pod.initContainers = pod.initContainers :=
    updateContainers_self _ _ (fun c hc =>
      record_lookup_self pod c
        (by simp only [Pod.allContainers, List.mem_append]; exact Or.inl hc) h)
  simp [hcs, hics]

/-- Witness for claim C8, at the two-container, two-init-container pod
of the test suite. -/
theorem setAllocated_then_update_is_identity_witness :
    ((testC8Pod.allContainers.map Container.name).Nodup) ∧
    updatePodFromAllocation testC8Pod
      (SetAllocatedResources testC8Pod []) = (testC8Pod, false) :=
  ⟨by decide, setAllocated_then_update_is_identity testC8Pod [] (by decide)⟩

/-- Claim C4: a static (file-sourced) pod's resize request — that is,
one whose desired resources differ from its allocation — is always
classified Infeasible with the static-pod message, regardless of fit. -/
theorem static_pod_resize_always_infeasible (node : NodeCapacity)
    (allocs : PodResourceInfoMap) (pod : Pod)
    (hresize : desiredEqualsAllocated allocs pod = false)
    (hstatic : pod.isStatic = true) :
    (handlePodResourcesResize node allocs pod).2.1 =
      .infeasible "In-place resize of static-pods is not supported" := by
  simp [handlePodResourcesResize, hresize, hstatic, staticPodMessage]

/-- Witness for claim C4, at a static pod proposing a pure decrease
that would trivially fit the node. -/
theorem static_pod_resize_always_infeasible_witness :
    (desiredEqualsAllocated testAllocs
        (testStaticPod1With (reqs 500 524288000)) = false ∧
      (testStaticPod1With (reqs 500 524288000)).isStatic = true ∧
      isDecreaseOnly testAllocs
        (testStaticPod1With (reqs 500 524288000)) = true) ∧
    (handlePodResourcesResize testNode testAllocs
        (testStaticPod1With (reqs 500 524288000))).2.1 =
      .infeasible "In-place resize of static-pods is not supported" :=
  ⟨⟨by decide, by decide, by decide⟩,
    static_pod_resize_always_infeasible testNode testAllocs _
      (by decide) (by decide)⟩

/-- Claim C5: when the evaluator rejects a resize (Deferred or
Infeasible), the Allocation Store is unchanged —
`GetContainerResourceAllocation` still answers exactly as before the
evaluation, for every pod and container. -/
theorem rejected_resize_leaves_allocation_unchanged (node : NodeCapacity)
    (allocs : PodResourceInfoMap) (pod : Pod)
    (h : ((handlePodResourcesResize node allocs pod).2.1).isRejected =
      true) :
    ∀ uid name,
      GetContainerResourceAllocation
        (handlePodResourcesResize node allocs pod).1 uid name =
      GetContainerResourceAllocation allocs uid name := by
  intro uid name
  rcases handle_store_cases node allocs pod with hs | ⟨had, _⟩
  · rw [hs]
  · rw [had] at h
    simp [ResizeDecision.isRejected] at h

/-- Witness for claim C5, at the Deferred scenario (CPU and memory
increase beyond currently free capacity): the stored allocation still
answers with the original 1000 milliCPU / 1Gi requirements. -/
theorem rejected_resize_leaves_allocation_unchanged_witness :
    (((handlePodResourcesResize testNode testAllocs
        (testPod1With (reqs 2500 2621440000))).2.1).isRejected = true) ∧
    (∀ uid name,
      GetContainerResourceAllocation
        (handlePodResourcesResize testNode testAllocs
          (testPod1With (reqs 2500 2621440000))).1 uid name =
      GetContainerResourceAllocation testAllocs uid name) ∧
    GetContainerResourceAllocation testAllocs 1 "c1" =
      some (reqs 1000 1073741824) :=
  ⟨by decide,
    rejected_resize_leaves_allocation_unchanged testNode testAllocs _
      (by decide),
    by decide⟩

/-- Claim C10: the pod re-sync callback fires exactly when the
evaluation found an actual resize to decide — admitted (InProgress),
Deferred or Infeasible alike — and never when the desired resources
already equal the allocation (no resize, or the new resources were
already allocated before evaluation). -/
theorem resync_triggered_iff_resize_decided (node : NodeCapacity)
    (allocs : PodResourceInfoMap) (pod : Pod) :
    ((handlePodResourcesResize node allocs pod).2.2 = true ↔
      (handlePodResourcesResize node allocs pod).2.1 ≠ .noResize) ∧
    ((handlePodResourcesResize node allocs pod).2.1 = .noResize ↔
      desiredEqualsAllocated allocs pod = true) := by
  unfold handlePodResourcesResize
  cases h0 : desiredEqualsAllocated allocs pod
  · simp only [h0, Bool.false_eq_true, if_false]
    repeat' split
    all_goals simp
  · simp [h0]

/-! ### Substring containment (for message claims) -/

/-- Whether the first character list starts the second. -/
def charListStartsWith : List Char → List Char → Bool
| [], _ => true
| _ :: _, [] => false
| a :: as, b :: bs => a == b && charListStartsWith as bs

/-- Whether the first character list occurs contiguously in the
second. -/
def charListHasSub (needle : List Char) : List Char → Bool
| [] => charListStartsWith needle []
| b :: bs => charListStartsWith needle (b :: bs) || charListHasSub needle bs

/-- Whether the first string occurs as a contiguous substring of the
second. -/
def strHasSub (needle hay : String) : Bool :=
  charListHasSub needle.data hay.data

/-- Every character list starts with itself. -/
theorem charListStartsWith_self (l : List Char) :
    charListStartsWith l l = true := by
  induction l with
  | nil => rfl
  | cons a as ih => simp [charListStartsWith, ih]

/-- A character list occurs at the end of any extension of itself. -/
theorem charListHasSub_append (s n : List Char) :
    charListHasSub n (s ++ n) = true := by
  induction s with
  | nil =>
    cases n with
    | nil => rfl
    | cons b bs =>
      show (charListStartsWith (b :: bs) (b :: bs) ||
        charListHasSub (b :: bs) bs) = true
      rw [charListStartsWith_self]
      rfl
  | cons a s' ih =>
    show (charListStartsWith n (a :: (s' ++ n)) ||
      charListHasSub n (s' ++ n)) = true
    rw [ih, Bool.or_true]

/-- A string contains any of its own suffixes. -/
theorem strHasSub_append_self (s n : String) :
    strHasSub n (s ++ n) = true := by
  unfold strHasSub
  rw [String.data_append]
  exact charListHasSub_append _ _

/-! ### Claims C1, C2, C3 -/

/-- Counterexample to claim C1 as stated: a static pod proposing a pure
decrease in every dimension is nevertheless classified Infeasible by the
evaluator (the static-pod gate precedes the automatic fit of
decreases). -/
theorem decrease_only_c1_counterexample :
    isDecreaseOnly testAllocs (testStaticPod1With (reqs 500 524288000)) =
      true ∧
    desiredEqualsAllocated testAllocs
      (testStaticPod1With (reqs 500 524288000)) = false ∧
    ((handlePodResourcesResize testNode testAllocs
      (testStaticPod1With (reqs 500 524288000))).2.1).isRejected =
      true := by
  decide

/-- Claim C1 (amended): for a pod that is not static and has no
swap-restricted container, a resize proposal in which every container's
change in every dimension (CPU and memory, requests and limits) is flat
or a decrease is never classified Deferred or Infeasible. -/
theorem decrease_only_never_rejected (node : NodeCapacity)
    (allocs : PodResourceInfoMap) (pod : Pod)
    (hdec : isDecreaseOnly allocs pod = true)
    (hstatic : pod.isStatic = false)
    (hswap : swapResizeDisallowed pod = false) :
    ((handlePodResourcesResize node allocs pod).2.1).isRejected =
      false := by
  have hcpu := dimensionIncreases_eq_false_of_decreaseOnly allocs pod
    .cpu hdec
  have hmem := dimensionIncreases_eq_false_of_decreaseOnly allocs pod
    .memory hdec
  cases h0 : desiredEqualsAllocated allocs pod
  · simp [handlePodResourcesResize, h0, hstatic, hswap,
      exceedsAllocatable, exceedsFree, hcpu, hmem,
      ResizeDecision.isRejected]
  · simp [handlePodResourcesResize, h0, ResizeDecision.isRejected]

/-- Witness for claim C1 (amended), at the pure CPU and memory decrease
of the test suite (1000 milliCPU / 1Gi down to 500 milliCPU / 500Mi). -/
theorem decrease_only_never_rejected_witness :
    (isDecreaseOnly testAllocs (testPod1With (reqs 500 524288000)) =
        true ∧
      (testPod1With (reqs 500 524288000)).isStatic = false ∧
      swapResizeDisallowed (testPod1With (reqs 500 524288000)) = false) ∧
    ((handlePodResourcesResize testNode testAllocs
      (testPod1With (reqs 500 524288000))).2.1).isRejected = false :=
  ⟨⟨by decide, by decide, by decide⟩,
    decrease_only_never_rejected testNode testAllocs _
      (by decide) (by decide) (by decide)⟩

/-- Counterexample to claim C2 as stated: a static pod requesting
memory beyond node allocatable is Infeasible, but its condition message
is the static-pod message, which does not contain the requested amount
and the capacity. -/
theorem over_allocatable_c2_counterexample :
    desiredEqualsAllocated testAllocs
      (testStaticPod1With (reqs 1000 4718592000)) = false ∧
    exceedsAllocatable testNode testAllocs
      (testStaticPod1With (reqs 1000 4718592000)) .memory = true ∧
    ((handlePodResourcesResize testNode testAllocs
      (testStaticPod1With (reqs 1000 4718592000))).2.1).messageOf =
      "In-place resize of static-pods is not supported" ∧
    strHasSub (requestedCapacityNote 4718592000 4294967296)
      ((handlePodResourcesResize testNode testAllocs
        (testStaticPod1With (reqs 1000 4718592000))).2.1).messageOf =
      false := by
  decide

/-- Claim C2 (amended): a resize proposal with an increased dimension
whose total request strictly exceeds node allocatable capacity is
always classified Infeasible; and provided the pod is not static and
has no swap-restricted container, the condition message contains the
requested amount and the capacity of an offending dimension. -/
theorem over_allocatable_infeasible_with_message (node : NodeCapacity)
    (allocs : PodResourceInfoMap) (pod : Pod) (res : ResourceName)
    (hne : desiredEqualsAllocated allocs pod = false)
    (hex : exceedsAllocatable node allocs pod res = true) :
    ((handlePodResourcesResize node allocs pod).2.1).isInfeasible =
      true ∧
    (pod.isStatic = false → swapResizeDisallowed pod = false →
      ∃ r, exceedsAllocatable node allocs pod r = true ∧
        (handlePodResourcesResize node allocs pod).2.1 =
          .infeasible (capacityMessage r (podRequestTotal pod r)
            (node.allocatable r)) ∧
        strHasSub
          (requestedCapacityNote (podRequestTotal pod r)
            (node.allocatable r))
          ((handlePodResourcesResize node allocs pod).2.1).messageOf =
          true) := by
  have main : ∀ hstatic : pod.isStatic = false,
      ∀ hswap : swapResizeDisallowed pod = false,
      ∃ r, exceedsAllocatable node allocs pod r = true ∧
        (handlePodResourcesResize node allocs pod).2.1 =
          .infeasible (capacityMessage r (podRequestTotal pod r)
            (node.allocatable r)) ∧
        strHasSub
          (requestedCapacityNote (podRequestTotal pod r)
            (node.allocatable r))
          ((handlePodResourcesResize node allocs pod).2.1).messageOf =
          true := by
    intro hstatic hswap
    cases hcpu : exceedsAllocatable node allocs pod .cpu
    · have hres : res = .memory := by
        cases res
        · rw [hcpu] at hex; exact absurd hex (by simp)
        · rfl
      rw [hres] at hex
      refine ⟨.memory, hex, ?_, ?_⟩
      · simp [handlePodResourcesResize, hne, hstatic, hswap, hcpu, hex,
          NodeCapacity.allocatable]
      · have hmsg : (handlePodResourcesResize node allocs pod).2.1 =
            .infeasible (capacityMessage .memory
              (podRequestTotal pod .memory)
              (node.allocatable .memory)) := by
          simp [handlePodResourcesResize, hne, hstatic, hswap, hcpu,
            hex, NodeCapacity.allocatable]
        rw [hmsg]
        show strHasSub _ (capacityMessage _ _ _) = true
        unfold capacityMessage
        exact strHasSub_append_self _ _
    · refine ⟨.cpu, hcpu, ?_, ?_⟩
      · simp [handlePodResourcesResize, hne, hstatic, hswap, hcpu,
          NodeCapacity.allocatable]
      · have hmsg : (handlePodResourcesResize node allocs pod).2.1 =
            .infeasible (capacityMessage .cpu (podRequestTotal pod .cpu)
              (node.allocatable .cpu)) := by
          simp [handlePodResourcesResize, hne, hstatic, hswap, hcpu,
            NodeCapacity.allocatable]
        rw [hmsg]
        show strHasSub _ (capacityMessage _ _ _) = true
        unfold capacityMessage
        exact strHasSub_append_self _ _
  refine ⟨?_, main⟩
  cases hstatic : pod.isStatic
  · cases hswap : swapResizeDisallowed pod
    · obtain ⟨r, _, hdec, _⟩ := main hstatic hswap
      rw [hdec]
      rfl
    · simp [handlePodResourcesResize, hne, hstatic, hswap,
        ResizeDecision.isInfeasible]
  · simp [handlePodResourcesResize, hne, hstatic,
      ResizeDecision.isInfeasible]

/-- Witness for claim C2 (amended), at the test scenario: a memory
request of 4500Mi = 4718592000 bytes on a node with 4Gi = 4294967296
bytes allocatable is Infeasible, and the message contains
`requested: 4718592000, capacity: 4294967296`. -/
theorem over_allocatable_infeasible_with_message_witness :
    (desiredEqualsAllocated testAllocs
        (testPod1With (reqs 1000 4718592000)) = false ∧
      exceedsAllocatable testNode testAllocs
        (testPod1With (reqs 1000 4718592000)) .memory = true) ∧
    ((handlePodResourcesResize testNode testAllocs
      (testPod1With (reqs 1000 4718592000))).2.1).isInfeasible = true ∧
    (∃ r, exceedsAllocatable testNode testAllocs
        (testPod1With (reqs 1000 4718592000)) r = true ∧
      (handlePodResourcesResize testNode testAllocs
        (testPod1With (reqs 1000 4718592000))).2.1 =
        .infeasible (capacityMessage r
          (podRequestTotal (testPod1With (reqs 1000 4718592000)) r)
          (testNode.allocatable r)) ∧
      strHasSub
        (requestedCapacityNote
          (podRequestTotal (testPod1With (reqs 1000 4718592000)) r)
          (testNode.allocatable r))
        ((handlePodResourcesResize testNode testAllocs
          (testPod1With (reqs 1000 4718592000))).2.1).messageOf =
        true) ∧
    strHasSub "requested: 4718592000, capacity: 4294967296"
      ((handlePodResourcesResize testNode testAllocs
        (testPod1With (reqs 1000 4718592000))).2.1).messageOf = true :=
  ⟨⟨by decide, by decide⟩,
    (over_allocatable_infeasible_with_message testNode testAllocs _
      .memory (by decide) (by decide)).1,
    (over_allocatable_infeasible_with_message testNode testAllocs _
      .memory (by decide) (by decide)).2 (by decide) (by decide),
    by decide⟩

/-- Counterexample to claim C3 as stated: a static pod whose proposal
fits node allocatable in principle but exceeds currently free capacity
is classified Infeasible, not Deferred. -/
theorem fits_node_not_free_c3_counterexample :
    desiredEqualsAllocated testAllocs
      (testStaticPod1With (reqs 2500 2621440000)) = false ∧
    exceedsAllocatable testNode testAllocs
      (testStaticPod1With (reqs 2500 2621440000)) .cpu = false ∧
    exceedsAllocatable testNode testAllocs
      (testStaticPod1With (reqs 2500 2621440000)) .memory = false ∧
    exceedsFree testNode testAllocs
      (testStaticPod1With (reqs 2500 2621440000)) .cpu = true ∧
    ((handlePodResourcesResize testNode testAllocs
      (testStaticPod1With (reqs 2500 2621440000))).2.1).isDeferred =
      false ∧
    ((handlePodResourcesResize testNode testAllocs
      (testStaticPod1With (reqs 2500 2621440000))).2.1).isInfeasible =
      true := by
  decide

/-- Claim C3 (amended): for a non-static pod with no swap-restricted
container, a resize proposal where no increased dimension exceeds node
allocatable capacity but some increased dimension exceeds the capacity
currently free (the difference occupied by sibling pods' allocations) is
classified Deferred. -/
theorem fits_node_but_not_free_is_deferred (node : NodeCapacity)
    (allocs : PodResourceInfoMap) (pod : Pod)
    (hne : desiredEqualsAllocated allocs pod = false)
    (hstatic : pod.isStatic = false)
    (hswap : swapResizeDisallowed pod = false)
    (hacpu : exceedsAllocatable node allocs pod .cpu = false)
    (hamem : exceedsAllocatable node allocs pod .memory = false)
    (hfree : exceedsFree node allocs pod .cpu = true ∨
      exceedsFree node allocs pod .memory = true) :
    ((handlePodResourcesResize node allocs pod).2.1).isDeferred =
      true := by
  cases hc : exceedsFree node allocs pod .cpu
  · have hm : exceedsFree node allocs pod .memory = true := by
      rcases hfree with h | h
      · rw [hc] at h; exact absurd h (by simp)
      · exact h
    simp [handlePodResourcesResize, hne, hstatic, hswap, hacpu, hamem,
      hc, hm, ResizeDecision.isDeferred]
  · simp [handlePodResourcesResize, hne, hstatic, hswap, hacpu, hamem,
      hc, ResizeDecision.isDeferred]

/-- Witness for claim C3 (amended), at the test scenario: a resize to
2500 milliCPU / 2500Mi fits the 4000 milliCPU / 4Gi node in principle,
but the two sibling pods occupy 2000 milliCPU / 2Gi, so the resize is
Deferred. -/
theorem fits_node_but_not_free_is_deferred_witness :
    (desiredEqualsAllocated testAllocs
        (testPod1With (reqs 2500 2621440000)) = false ∧
      exceedsAllocatable testNode testAllocs
        (testPod1With (reqs 2500 2621440000)) .cpu = false ∧
      exceedsAllocatable testNode testAllocs
        (testPod1With (reqs 2500 2621440000)) .memory = false ∧
      exceedsFree testNode testAllocs
        (testPod1With (reqs 2500 2621440000)) .cpu = true) ∧
    ((handlePodResourcesResize testNode testAllocs
      (testPod1With (reqs 2500 2621440000))).2.1).isDeferred = true :=
  ⟨⟨by decide, by decide, by decide, by decide⟩,
    fits_node_but_not_free_is_deferred testNode testAllocs _
      (by decide) (by decide) (by decide) (by decide) (by decide)
      (Or.inl (by decide))⟩

/-! ### Resize Progress Monitor -/

/-- Modelled from the spec: one container's entry in the runtime pod
status — the container's name and whether it is currently running (a
container absent from the status has not started). -/
structure ContainerStatus where
  name : String
  running : Bool
deriving DecidableEq

/-- Modelled from the spec: the runtime pod status — the list of
per-container statuses the runtime reports. -/
abbrev PodStatus := List ContainerStatus

/-- Modelled from the spec: the Actuation Tracker contents for one pod —
container name to the requirements the runtime confirmed as applied. -/
abbrev ActuatedMap := List (String × ResourceRequirements)

/-- The runtime status entry for a container name, if the container has
started. -/
def findContainerStatus (st : PodStatus) (name : String) :
    Option ContainerStatus :=
  st.find? (fun cs => cs.name == name)

/-- The actuated requirements recorded for a container name. -/
def actuatedLookup (act : ActuatedMap) (name : String) :
    Option ResourceRequirements :=
  (act.find? (fun e => e.1 == name)).map (fun e => e.2)

/-- Whether two requirements agree on CPU and memory requests and
limits, absent keys reading as zero quantities. -/
def requirementsMatch (a b : ResourceRequirements) : Bool :=
  a.requests.getZ .cpu == b.requests.getZ .cpu &&
  a.limits.getZ .cpu == b.limits.getZ .cpu &&
  a.requests.getZ .memory == b.requests.getZ .memory &&
  a.limits.getZ .memory == b.limits.getZ .memory

/-- Whether one container shows a resize still in flight: it must be
present in the runtime status, currently running, and have actuated
resources differing from its allocated resources (unrecorded actuation
reads as empty requirements). -/
def containerResizeInProgress (act : ActuatedMap) (st : PodStatus)
    (c : Container) : Bool :=
  match findContainerStatus st c.name with
  | none => false
  | some cs =>
    cs.running &&
      !(requirementsMatch c.resources
        ((actuatedLookup act c.name).getD {}))

/-- Modelled from the spec: `isPodResizeInProgress(pod, podStatus)` — a
resize is still in flight when some main container, or some restartable
init container (sidecar), is running with actuated resources differing
from its allocated resources; ordinary init containers never
contribute.  The pod here is the allocated pod, so `c.resources` are
the allocated requirements. -/
def isPodResizeInProgress (pod : Pod) (st : PodStatus)
    (act : ActuatedMap) : Bool :=
  pod.containers.any (containerResizeInProgress act st) ||
  pod.initContainers.any
    (fun c => c.restartAlways && containerResizeInProgress act st c)

/-- One container's in-flight check, as an existential. -/
theorem containerResizeInProgress_iff (act : ActuatedMap)
    (st : PodStatus) (c : Container) :
    containerResizeInProgress act st c = true ↔
      ∃ cs, findContainerStatus st c.name = some cs ∧
        cs.running = true ∧
        requirementsMatch c.resources
          ((actuatedLookup act c.name).getD {}) = false := by
  unfold containerResizeInProgress
  cases h : findContainerStatus st c.name with
  | none => simp [h]
  | some cs => simp [h, Bool.and_eq_true, Bool.not_eq_true']

/-- Claim C6: `isPodResizeInProgress` holds exactly when some container
that is either a main container or a restartable init container
(sidecar), is present in the runtime status (has started), is currently
running there, and has actuated resources differing from its allocated
resources.  Containers absent from the status, non-running containers
and ordinary init containers never contribute. -/
theorem isPodResizeInProgress_iff (pod : Pod) (st : PodStatus)
    (act : ActuatedMap) :
    isPodResizeInProgress pod st act = true ↔
      ∃ c, (c ∈ pod.containers ∨
          (c ∈ pod.initContainers ∧ c.restartAlways = true)) ∧
        ∃ cs, findContainerStatus st c.name = some cs ∧
          cs.running = true ∧
          requirementsMatch c.resources
            ((actuatedLookup act c.name).getD {}) = false := by
  unfold isPodResizeInProgress
  simp only [Bool.or_eq_true, List.any_eq_true, Bool.and_eq_true,
    containerResizeInProgress_iff]
  constructor
  · rintro (⟨c, hc, hP⟩ | ⟨c, hc, hr, hP⟩)
    · exact ⟨c, Or.inl hc, hP⟩
    · exact ⟨c, Or.inr ⟨hc, hr⟩, hP⟩
  · rintro ⟨c, hc | ⟨hc, hr⟩, hP⟩
    · exact Or.inl ⟨c, hc, hP⟩
    · exact Or.inr ⟨c, hc, hr, hP⟩

/-- Sanity: a pod whose only mismatched container has not yet started
(absent from the status) shows no resize in progress, and the same pod
shows one as soon as that container starts running with mismatched
actuated resources; an ordinary init container's mismatch is ignored
while a sidecar's counts; a terminated container's mismatch is
ignored. -/
theorem isPodResizeInProgress_testcases :
    isPodResizeInProgress
      { uid := 7, containers := [{ name := "c0", resources := reqs 100 100 }] }
      [] [("c0", reqs 150 100)] = false ∧
    isPodResizeInProgress
      { uid := 7, containers := [{ name := "c0", resources := reqs 100 100 }] }
      [⟨"c0", true⟩] [("c0", reqs 150 100)] = true ∧
    isPodResizeInProgress
      { uid := 7,
        initContainers := [{ name := "c0", resources := reqs 100 100 }] }
      [⟨"c0", true⟩] [("c0", reqs 150 100)] = false ∧
    isPodResizeInProgress
      { uid := 7,
        initContainers := [{ name := "c0", resources := reqs 100 100,
                             restartAlways := true }] }
      [⟨"c0", true⟩] [("c0", reqs 150 100)] = true ∧
    isPodResizeInProgress
      { uid := 7, containers := [{ name := "c0", resources := reqs 100 100 }] }
      [⟨"c0", false⟩] [("c0", reqs 150 100)] = false := by
  decide

/-! ### Increasing-requests predicate and Pending Resize Queue -/

/-- Modelled from the spec: `isResizeIncreasingRequests(pod)` — whether
the resize is a net resource increase, computed on the aggregate sum of
requests across all of the pod's containers: the proposed totals are
compared against the totals of the pod updated from its allocation. -/
def isResizeIncreasingRequests (allocs : PodResourceInfoMap)
    (pod : Pod) : Bool :=
  let allocatedPod := (updatePodFromAllocation pod allocs).1
  decide (podRequestTotal allocatedPod .cpu <
      podRequestTotal pod .cpu) ||
  decide (podRequestTotal allocatedPod .memory <
      podRequestTotal pod .memory)

/-- Modelled from the spec: the Pending Resize Queue comparator —
whether pod `a` sorts no later than pod `b`.  Non-increasing resizes
sort first; then higher scheduling priority; then Guaranteed QoS; then
the pod Deferred for longer (earlier transition time, `deferredSince`);
pods with no resize condition yet (`none`) sort last. -/
def resizeSortsNoLaterThan (allocs : PodResourceInfoMap)
    (deferredSince : Nat → Option Nat) (a b : Pod) : Bool :=
  if isResizeIncreasingRequests allocs a !=
      isResizeIncreasingRequests allocs b then
    !(isResizeIncreasingRequests allocs a)
  else if a.priority != b.priority then
    decide (b.priority < a.priority)
  else if a.qosGuaranteed != b.qosGuaranteed then
    a.qosGuaranteed
  else
    match deferredSince a.uid, deferredSince b.uid with
    | some ta, some tb => decide (ta ≤ tb)
    | some _, none => true
    | none, some _ => false
    | none, none => true

/-- Stable sorted insertion with respect to a comparator: the new
element goes after every queued element that sorts no later than it. -/
def insertPendingResize (le : Pod → Pod → Bool) (p : Pod) :
    List Pod → List Pod
| [] => [p]
| q :: qs =>
  if le q p then q :: insertPendingResize le p qs else p :: q :: qs

/-- Modelled from the spec: `PushPendingResize` — pushing an
already-queued pod identifier is a no-op; otherwise the pod is inserted
at the position the comparator determines. -/
def PushPendingResize (allocs : PodResourceInfoMap)
    (deferredSince : Nat → Option Nat) (queue : List Pod) (p : Pod) :
    List Pod :=
  if queue.any (fun x => x.uid == p.uid) then queue
  else insertPendingResize
    (resizeSortsNoLaterThan allocs deferredSince) p queue

/-- All ways to insert an element into a list. -/
def insertEverywhere (x : α) : List α → List (List α)
| [] => [[x]]
| a :: as => (x :: a :: as) ::
    (insertEverywhere x as).map (fun l => a :: l)

/-- All permutations of a list, built structurally so they evaluate. -/
def allArrangements : List α → List (List α)
| [] => [[]]
| a :: as => ((allArrangements as).map (insertEverywhere a)).flatten

/-! Fixtures for the queue-ordering test: six pods, all allocated 1000
milliCPU / 1Gi.  Pod 0 proposes a pure decrease; pods 1 to 5 propose an
increase to 1500 milliCPU / 1500Mi; pod 1 has scheduling priority 100;
pod 2 is Guaranteed; pods 3 and 4 are Deferred since times 1 and 2;
pod 5 has no resize condition. -/

/-- Queue-test pod 0: non-increasing resize. -/
def qPod0 : Pod :=
  { uid := 0, containers := [{ name := "c0", resources := reqs 500 524288000 }] }

/-- Queue-test pod 1: increase, scheduling priority 100. -/
def qPod1 : Pod :=
  { uid := 1, priority := 100,
    containers := [{ name := "c1", resources := reqs 1500 1572864000 }] }

/-- Queue-test pod 2: increase, Guaranteed QoS. -/
def qPod2 : Pod :=
  { uid := 2, qosGuaranteed := true,
    containers := [{ name := "c2", resources := reqs 1500 1572864000 }] }

/-- Queue-test pod 3: increase, Deferred since time 1. -/
def qPod3 : Pod :=
  { uid := 3, containers := [{ name := "c3", resources := reqs 1500 1572864000 }] }

/-- Queue-test pod 4: increase, Deferred since time 2. -/
def qPod4 : Pod :=
  { uid := 4, containers := [{ name := "c4", resources := reqs 1500 1572864000 }] }

/-- Queue-test pod 5: increase, no resize condition yet. -/
def qPod5 : Pod :=
  { uid := 5, containers := [{ name := "c5", resources := reqs 1500 1572864000 }] }

/-- The store with all six queue-test pods allocated at 1000 milliCPU /
1Gi. -/
def qAllocs : PodResourceInfoMap :=
  [(0, ⟨[("c0", reqs 1000 1073741824)]⟩),
   (1, ⟨[("c1", reqs 1000 1073741824)]⟩),
   (2, ⟨[("c2", reqs 1000 1073741824)]⟩),
   (3, ⟨[("c3", reqs 1000 1073741824)]⟩),
   (4, ⟨[("c4", reqs 1000 1073741824)]⟩),
   (5, ⟨[("c5", reqs 1000 1073741824)]⟩)]

/-- Deferred-condition transition times of the queue-test pods. -/
def qDeferredSince : Nat → Option Nat := fun uid =>
  if uid == 3 then some 1 else if uid == 4 then some 2 else none

/-- One push into the queue-test queue. -/
def qPush (queue : List Pod) (p : Pod) : List Pod :=
  PushPendingResize qAllocs qDeferredSince queue p

set_option maxRecDepth 10000 in
/-- Claim C7: the six queue-test pods have the attributes the claim
lists (pod 0's resize is not a net increase, the rest are increases),
and pushing them in any of the 720 possible orders leaves the queue in
exactly the order [P0, P1, P2, P3, P4, P5] — ordering is independent of
push order. -/
theorem queue_order_independent_of_push_order :
    isResizeIncreasingRequests qAllocs qPod0 = false ∧
    isResizeIncreasingRequests qAllocs qPod1 = true ∧
    isResizeIncreasingRequests qAllocs qPod2 = true ∧
    isResizeIncreasingRequests qAllocs qPod3 = true ∧
    isResizeIncreasingRequests qAllocs qPod4 = true ∧
    isResizeIncreasingRequests qAllocs qPod5 = true ∧
    ((allArrangements [qPod0, qPod1, qPod2, qPod3, qPod4, qPod5]).all
      (fun l => decide (l.foldl qPush [] =
        [qPod0, qPod1, qPod2, qPod3, qPod4, qPod5]))) = true := by
  decide

/-- The increasing-requests test pod: two containers with requests,
two without. -/
def c9Base : Pod :=
  { uid := 9,
    containers :=
      [{ name := "c1", resources := reqs 1000 1073741824 },
       { name := "c2", resources := reqs 1000 1073741824 },
       { name := "c3", resources := {} },
       { name := "c4", resources := {} }] }

/-- The store with the increasing-requests test pod allocated. -/
def c9Allocs : PodResourceInfoMap := SetAllocatedResources c9Base []

/-- Proposal raising container 1 and lowering container 2 by the same
amounts (net neutral). -/
def c9NetNeutral : Pod :=
  { c9Base with containers :=
      [{ name := "c1", resources := reqs 1500 1572864000 },
       { name := "c2", resources := reqs 500 524288000 },
       { name := "c3", resources := {} },
       { name := "c4", resources := {} }] }

/-- Proposal removing container 1's requests. -/
def c9Removed : Pod :=
  { c9Base with containers :=
      [{ name := "c1", resources := {} },
       { name := "c2", resources := reqs 1000 1073741824 },
       { name := "c3", resources := {} },
       { name := "c4", resources := {} }] }

/-- Proposal adding requests to container 3, which had none. -/
def c9Added : Pod :=
  { c9Base with containers :=
      [{ name := "c1", resources := reqs 1000 1073741824 },
       { name := "c2", resources := reqs 1000 1073741824 },
       { name := "c3", resources := reqs 1000 1073741824 },
       { name := "c4", resources := {} }] }

/-- Proposal raising container 1's requests. -/
def c9Raised : Pod :=
  { c9Base with containers :=
      [{ name := "c1", resources := reqs 1500 1572864000 },
       { name := "c2", resources := reqs 1000 1073741824 },
       { name := "c3", resources := {} },
       { name := "c4", resources := {} }] }

/-- Claim C9: the increasing-requests predicate is aggregate, not per
container — raising one container's requests while lowering another's
by the same amounts is not an increase even though some dimension
increases per container; removing a container's requests is not an
increase; adding requests to a container that previously had none is an
increase; a plain raise is an increase. -/
theorem isResizeIncreasingRequests_aggregate :
    dimensionIncreases c9Allocs c9NetNeutral .cpu = true ∧
    dimensionIncreases c9Allocs c9NetNeutral .memory = true ∧
    isResizeIncreasingRequests c9Allocs c9NetNeutral = false ∧
    isResizeIncreasingRequests c9Allocs c9Removed = false ∧
    isResizeIncreasingRequests c9Allocs c9Added = true ∧
    isResizeIncreasingRequests c9Allocs c9Raised = true := by
  decide

end Allocation
